import Mathlib

/-!
Verification of the libnl core library (lib/msg.c, lib/nl.c, lib/handlers.c)
against its natural-language specification.

The development shallowly embeds the C sources:
* machine integers are modelled as `Nat`/`Int` with explicit `% 2^w` where the
  C performs modular or converted arithmetic (`nlmsg_len` is `u32`, `size_t`
  is 64 bits, `int` is 32 bits);
* message buffers are lists of bytes, where a byte is `Option Nat` and `none`
  stands for memory that `realloc` left uninitialized (`calloc` and `memset`
  produce `some 0`);
* the receive state machine `recvmsgs` is embedded as a step function over an
  explicit state, instrumented with a trace of callback invocations so that
  "hook X is invoked" is a statement about the model;
* user callbacks are arbitrary Lean functions returning the C `int` code.

Numeric constants that the sources pick up from public netlink headers
(linux/netlink.h, netlink/handlers.h, netlink/errno.h, netlink/netlink.h —
headers not included under src/) are transcribed with their standard values;
the claims do not depend on the particular numbers.
-/

/-! ### Protocol constants (from linux/netlink.h and netlink headers) -/

def NLMSG_NOOP : Nat := 1

def NLMSG_ERROR : Nat := 2

def NLMSG_DONE : Nat := 3

def NLMSG_OVERRUN : Nat := 4

/-- `NLMSG_HDRLEN = NLMSG_ALIGN(sizeof(struct nlmsghdr))` = 16. -/
def NLMSG_HDRLEN : Nat := 16

def NLMSG_ALIGNTO : Nat := 4

def NLM_F_REQUEST : Nat := 1

def NLM_F_MULTI : Nat := 2

def NLM_F_ACK : Nat := 4

def NLM_F_DUMP_INTR : Nat := 16

def NL_AUTO_PORT : Nat := 0

def NL_AUTO_SEQ : Nat := 0

/-- Socket flag bits (netlink/types: `sk->s_flags`). -/
def NL_SOCK_BUFSIZE_SET : Nat := 1

def NL_SOCK_PASSCRED : Nat := 2

def NL_OWN_PORT : Nat := 4

def NL_MSG_PEEK : Nat := 8

def NL_NO_AUTO_ACK : Nat := 16

/-- Callback return codes (netlink/handlers.h). -/
def NL_OK : Int := 0

def NL_SKIP : Int := 1

def NL_STOP : Int := 2

/-- Library error codes (netlink/errno.h), negated on return. -/
def NLE_FAILURE : Nat := 1

def NLE_NOMEM : Nat := 5

def NLE_SEQ_MISMATCH : Nat := 16

def NLE_MSG_OVERFLOW : Nat := 17

def NLE_MSG_TRUNC : Nat := 18

def NLE_DUMP_INTR : Nat := 26

/-- Modelled from the spec: the transport-errno translator `nl_syserr2nlerr`
(defined in lib/error.c, which is not under src/).  The spec only says that
transport errnos are "translated" into positive library codes that are negated
on return; the particular table is irrelevant to every claim, so the model
translates every errno to `NLE_FAILURE`. -/
def nl_syserr2nlerr (_error : Int) : Int := (NLE_FAILURE : Int)

/-! ### Frame header and message objects (lib/msg.c) -/

/-- `struct nlmsghdr`: fixed 16-octet frame header.  `nlmsg_len` is `u32`,
`nlmsg_type`/`nlmsg_flags` are `u16`, `nlmsg_seq`/`nlmsg_pid` are `u32`. -/
structure Nlmsghdr where
  nlmsg_len : Nat
  nlmsg_type : Nat
  nlmsg_flags : Nat
  nlmsg_seq : Nat
  nlmsg_pid : Nat
deriving DecidableEq

/-- `struct nl_msg`: an owned message.  `nm_nlh` points at a heap buffer that
starts with the header; `nm_payload` models the bytes of that buffer after the
16 header octets (`none` = uninitialized byte), so the allocated buffer size is
`NLMSG_HDRLEN + nm_payload.length`.  Peer addresses and credentials play no
role in any claim and are omitted. -/
structure NlMsg where
  nm_nlh : Nlmsghdr
  nm_payload : List (Option Nat)
  nm_protocol : Int
deriving DecidableEq

/-- Size of the buffer owned by a message (the size passed to
calloc/realloc in lib/msg.c). -/
def NlMsg.buffer_len (m : NlMsg) : Nat := NLMSG_HDRLEN + m.nm_payload.length

/-! ### Size calculations (lib/msg.c, linux/netlink.h) -/

/-- `NLMSG_ALIGN(len) = ((len)+NLMSG_ALIGNTO-1) & ~(NLMSG_ALIGNTO-1)` with
`NLMSG_ALIGNTO = 4U`: the computation is carried out in 32-bit unsigned
arithmetic, so the sum wraps modulo `2^32` and `~3U = 2^32 - 4`. -/
def NLMSG_ALIGN (len : Nat) : Nat := ((len + 3) % 2^32) &&& (2^32 - 4)

/-- `nlmsg_msg_size(payload) = NLMSG_HDRLEN + payload`. -/
def nlmsg_msg_size (payload : Nat) : Nat := NLMSG_HDRLEN + payload

/-- `nlmsg_total_size(payload) = NLMSG_ALIGN(nlmsg_msg_size(payload))`. -/
def nlmsg_total_size (payload : Nat) : Nat := NLMSG_ALIGN (nlmsg_msg_size payload)

/-- `nlmsg_padlen(payload)`. -/
def nlmsg_padlen (payload : Nat) : Nat := nlmsg_total_size payload - nlmsg_msg_size payload

/-! ### Frame iteration (lib/msg.c: nlmsg_ok / nlmsg_next)

`nlmsg_ok` is compiled from
```
return (remaining >= sizeof(struct nlmsghdr) &&
        nlh->nlmsg_len >= sizeof(struct nlmsghdr) &&
        nlh->nlmsg_len <= remaining);
```
where `remaining` is a signed `int`, `nlmsg_len` is `u32` and
`sizeof(struct nlmsghdr)` is a `size_t` (64-bit unsigned).  By the C usual
arithmetic conversions the first comparison converts `remaining` to `size_t`
(value `remaining mod 2^64`) and the third converts `remaining` to
`unsigned int` (value `remaining mod 2^32`).  The embedding keeps those
conversions. -/
def nlmsg_ok (nlh : Nlmsghdr) (remaining : Int) : Bool :=
  decide ((16 : Int) ≤ remaining % 2^64) &&
  decide (16 ≤ nlh.nlmsg_len) &&
  decide ((nlh.nlmsg_len : Int) ≤ remaining % 2^32)

/-- The iteration predicate as the spec words it: `ok` iff
`remaining ≥ 16 ∧ header.length ≥ 16 ∧ header.length ≤ remaining` with
`remaining` read as a mathematical (signed) integer. -/
def nlmsg_ok_spec (nlh : Nlmsghdr) (remaining : Int) : Bool :=
  decide ((16 : Int) ≤ remaining) &&
  decide (16 ≤ nlh.nlmsg_len) &&
  decide ((nlh.nlmsg_len : Int) ≤ remaining)

/-- `nlmsg_next`: decrements `remaining` by `NLMSG_ALIGN(nlmsg_len)` (the
returned pointer advances by the same amount and is not modelled). -/
def nlmsg_next (nlh : Nlmsghdr) (remaining : Int) : Int :=
  remaining - (NLMSG_ALIGN nlh.nlmsg_len : Int)

/-! ### Message building (lib/msg.c) -/

/-- `__nlmsg_alloc(len)`: calloc a zeroed buffer of `len` octets and store
`len` in the header's length field (`nlmsg_len` is `u32`).  The protocol
starts unset (−1). -/
def nlmsg_alloc_buf (len : Nat) : NlMsg :=
  { nm_nlh := { nlmsg_len := len % 2^32
                nlmsg_type := 0
                nlmsg_flags := 0
                nlmsg_seq := 0
                nlmsg_pid := 0 }
    nm_payload := List.replicate (len - NLMSG_HDRLEN) (some 0)
    nm_protocol := -1 }

/-- `nlmsg_alloc() = __nlmsg_alloc(nlmsg_total_size(0))`. -/
def nlmsg_alloc : NlMsg := nlmsg_alloc_buf (nlmsg_total_size 0)

/-- `nlmsg_inherit(hdr)`: fresh message, header fields (except length) copied
from the template when present. -/
def nlmsg_inherit (hdr : Option Nlmsghdr) : NlMsg :=
  match hdr with
  | none => nlmsg_alloc
  | some h =>
    { nlmsg_alloc with
      nm_nlh := { nlmsg_alloc.nm_nlh with
                  nlmsg_type := h.nlmsg_type
                  nlmsg_flags := h.nlmsg_flags
                  nlmsg_seq := h.nlmsg_seq
                  nlmsg_pid := h.nlmsg_pid } }

/-- `nlmsg_alloc_simple(type, flags)`. -/
def nlmsg_alloc_simple (ty fl : Nat) : NlMsg :=
  nlmsg_inherit (some { nlmsg_len := 0
                        nlmsg_type := ty
                        nlmsg_flags := fl
                        nlmsg_seq := 0
                        nlmsg_pid := 0 })

/-- `nlmsg_convert(hdr)`: `__nlmsg_alloc(NLMSG_ALIGN(hdr->nlmsg_len))`
followed by `memcpy(nm->nm_nlh, hdr, hdr->nlmsg_len)`.  The copy writes the
16 header octets (including the unaligned `nlmsg_len` itself) and the
`hdr->nlmsg_len − 16` payload octets `data`; the zeroed tail of the calloc'd
buffer survives beyond the copy. -/
def nlmsg_convert (hdr : Nlmsghdr) (data : List Nat) : NlMsg :=
  let nm := nlmsg_alloc_buf (NLMSG_ALIGN hdr.nlmsg_len)
  { nm with
    nm_nlh := hdr
    nm_payload := data.map some ++ nm.nm_payload.drop data.length }

/-- Truncate/extend a byte list to exactly `n` bytes; bytes that were never
written (past the end of the old allocation) are uninitialized. -/
def listResize (l : List (Option Nat)) (n : Nat) : List (Option Nat) :=
  l.take n ++ List.replicate (n - l.length) none

/-- `memcpy` of `data` into a byte list at offset `s` (writes past the list's
end fall outside the allocation and are dropped). -/
def listWrite (l : List (Option Nat)) (s : Nat) (d : List Nat) : List (Option Nat) :=
  l.take s ++ (d.map some).take (l.length - s) ++ l.drop (s + d.length)

/-- The amount the buffer grows by in `nlmsg_reserve`:
`tlen = pad ? ((len + (pad - 1)) & ~(pad - 1)) : len`.
`len` and `tlen` are `size_t`, `pad` is `int`; `~(pad-1)` sign-extends to
`2^64 - pad` for `pad ≥ 1`. -/
def reserve_tlen (len pad : Nat) : Nat :=
  if pad = 0 then len else ((len + (pad - 1)) % 2^64) &&& (2^64 - pad)

/-- `nlmsg_reserve(n, len, pad)`:
```
tlen = pad ? ((len + (pad - 1)) & ~(pad - 1)) : len;
tmp = realloc(n->nm_nlh, n->nm_nlh->nlmsg_len + tlen);
tmp += n->nm_nlh->nlmsg_len;            // old length
n->nm_nlh->nlmsg_len += tlen;
if (tlen > len) memset(tmp + len, 0, tlen - len);
```
The buffer is reallocated to `old_len + tlen` octets (any realloc extension is
uninitialized) and the `tlen − len` trailing padding octets are zeroed; since
the memset region ends exactly at the new buffer end, the new payload is the
old bytes resized to `old_len − 16 + len` followed by `tlen − len` zeros.
Returns the updated message together with the byte offset of the reserved
region (the C returns the pointer `nm_nlh + old_len`).  Allocation failure is
not modelled. -/
def nlmsg_reserve (m : NlMsg) (len pad : Nat) : NlMsg × Nat :=
  let tlen := reserve_tlen len pad
  let oldLen := m.nm_nlh.nlmsg_len
  ({ m with
     nm_nlh := { m.nm_nlh with nlmsg_len := (oldLen + tlen) % 2^32 }
     nm_payload := listResize m.nm_payload (oldLen - NLMSG_HDRLEN + len) ++
                   List.replicate (tlen - len) (some 0) },
   oldLen)

/-- `nlmsg_append(n, data, len, pad)`: reserve then copy `data` into the
reserved region. -/
def nlmsg_append (m : NlMsg) (data : List Nat) (pad : Nat) : NlMsg :=
  let r := nlmsg_reserve m data.length pad
  { r.1 with nm_payload := listWrite r.1.nm_payload (r.2 - NLMSG_HDRLEN) data }

/-- `nlmsg_put(n, pid, seq, type, payload, flags)`: overwrite the header
fields (the length field is untouched), then reserve `payload` more octets
with `NLMSG_ALIGNTO` padding when `payload > 0`. -/
def nlmsg_put (m : NlMsg) (pid seq : Nat) (ty : Nat) (payload : Int)
    (fl : Nat) : NlMsg :=
  let h1 := { m.nm_nlh with
              nlmsg_type := ty
              nlmsg_flags := fl
              nlmsg_pid := pid
              nlmsg_seq := seq }
  let m1 := { m with nm_nlh := h1 }
  if 0 < payload then (nlmsg_reserve m1 payload.toNat NLMSG_ALIGNTO).1 else m1

/-- The message invariant exactly as the spec words it (spec §8 property 1):
the header length always matches the buffer size, and the buffer size is
divisible by 4. -/
def msg_invariant (m : NlMsg) : Prop :=
  m.nm_nlh.nlmsg_len = m.buffer_len ∧ m.buffer_len % 4 = 0

instance (m : NlMsg) : Decidable (msg_invariant m) := by
  unfold msg_invariant; infer_instance

/-- Rounding up as the spec words it: `align(n, p)` is the least multiple of
`p` that is `≥ n`. -/
def spec_align (n p : Nat) : Nat := (n + p - 1) / p * p

/-! ### Socket state and header auto-completion (lib/nl.c: nl_complete_msg) -/

/-- The `struct nl_sock` fields that `nl_complete_msg` and `recvmsgs`
consult: the bound local port id, the protocol, the two sequence counters
(`u32`) and the flag bitset. -/
structure NlSockS where
  s_local_pid : Nat
  s_proto : Int
  s_seq_next : Nat
  s_seq_expect : Nat
  s_flags : Nat
deriving DecidableEq

/-- `nl_complete_msg(sk, msg)`, embedded as a pure function from
(socket, message) to the updated pair.  The statements follow the source
order; `sk->s_seq_next++` is a post-increment (the old value is stamped into
the header) and wraps modulo `2^32`. -/
def nl_complete_msg (sk : NlSockS) (m : NlMsg) : NlSockS × NlMsg :=
  let m1 := if m.nm_nlh.nlmsg_pid = NL_AUTO_PORT
            then { m with nm_nlh := { m.nm_nlh with nlmsg_pid := sk.s_local_pid } }
            else m
  let sk1 := if m1.nm_nlh.nlmsg_seq = NL_AUTO_SEQ
             then { sk with s_seq_next := (sk.s_seq_next + 1) % 2^32 }
             else sk
  let m2 := if m1.nm_nlh.nlmsg_seq = NL_AUTO_SEQ
            then { m1 with nm_nlh := { m1.nm_nlh with nlmsg_seq := sk.s_seq_next } }
            else m1
  let m3 := if m2.nm_protocol = -1 then { m2 with nm_protocol := sk.s_proto } else m2
  let m4 := { m3 with
              nm_nlh := { m3.nm_nlh with
                          nlmsg_flags := m3.nm_nlh.nlmsg_flags ||| NLM_F_REQUEST } }
  let m5 := if sk.s_flags &&& NL_NO_AUTO_ACK = 0
            then { m4 with
                   nm_nlh := { m4.nm_nlh with
                               nlmsg_flags := m4.nm_nlh.nlmsg_flags ||| NLM_F_ACK } }
            else m4
  (sk1, m5)

/-! ### Callback-set reference counting (lib/handlers.c) -/

/-- A callback set as seen by `nl_cb_get`/`nl_cb_put`: its reference count
(`int`) plus the dispatch-table contents, abstracted as an opaque value since
`get`/`put` never touch them. -/
structure CbBox where
  cb_refcnt : Int
  cb_table : Nat
deriving DecidableEq

/-- `nl_cb_alloc` sets `cb->cb_refcnt = 1`. -/
def nl_cb_alloc_box (table : Nat) : CbBox := { cb_refcnt := 1, cb_table := table }

/-- `nl_cb_get(cb)`: increment the refcount and return the same set. -/
def nl_cb_get (cb : CbBox) : CbBox := { cb with cb_refcnt := cb.cb_refcnt + 1 }

/-- Outcome of `nl_cb_put`: nothing happened (null argument), the assertion
`BUG()` fired (count went negative), the set was freed, or the set was kept
with the decremented count. -/
inductive PutResult where
  | noop : PutResult
  | bug : PutResult
  | freed : PutResult
  | kept (cb : CbBox) : PutResult
deriving DecidableEq

/-- `nl_cb_put(cb)`:
```
if (!cb) return;
cb->cb_refcnt--;
if (cb->cb_refcnt < 0) BUG();
if (cb->cb_refcnt <= 0) free(cb);
```
-/
def nl_cb_put (cb : Option CbBox) : PutResult :=
  match cb with
  | none => .noop
  | some c =>
    let c' := { c with cb_refcnt := c.cb_refcnt - 1 }
    if c'.cb_refcnt < 0 then .bug
    else if c'.cb_refcnt ≤ 0 then .freed
    else .kept c'

/-! ### The callback dispatch table (struct nl_cb) as used by the send and
receive paths.  A slot holds `none` when the function pointer is NULL; a
bound hook is an arbitrary function from the frame header it is shown to the
`int` it returns.  The error hook receives the inner `nlmsgerr` error code. -/

structure NlCb where
  cb_valid : Option (Nlmsghdr → Int) := none
  cb_finish : Option (Nlmsghdr → Int) := none
  cb_overrun : Option (Nlmsghdr → Int) := none
  cb_skipped : Option (Nlmsghdr → Int) := none
  cb_ack : Option (Nlmsghdr → Int) := none
  cb_msg_in : Option (Nlmsghdr → Int) := none
  cb_msg_out : Option (Nlmsghdr → Int) := none
  cb_invalid : Option (Nlmsghdr → Int) := none
  cb_seq_check : Option (Nlmsghdr → Int) := none
  cb_send_ack : Option (Nlmsghdr → Int) := none
  cb_dump_intr : Option (Nlmsghdr → Int) := none
  cb_err : Option (Int → Int) := none

/-! ### Send path (lib/nl.c: nl_sendmsg) -/

/-- `sendmsg()` syscall outcome followed by the errno translation of
`nl_sendmsg`: a negative transport result is translated, a nonnegative one is
the octet count.  The boolean records that the transport was invoked. -/
def sendmsg_wire (hdr : Nlmsghdr) (wire : Nlmsghdr → Int) : Int × Bool :=
  let ret := wire hdr
  if ret < 0 then (-(nl_syserr2nlerr (-ret)), true) else (ret, true)

/-- `nl_sendmsg(sk, msg, hdr)`: if a `MSG_OUT` hook is bound and returns
anything other than `NL_OK`, that value is returned and nothing is written;
otherwise the datagram is handed to the transport, whose error is translated.
(`nlmsg_set_src` copies the local address into the message first; addresses
are not part of the model.)  The boolean of the result records whether the
transport was invoked. -/
def nl_sendmsg (cb : NlCb) (hdr : Nlmsghdr) (wire : Nlmsghdr → Int) : Int × Bool :=
  match cb.cb_msg_out with
  | some g =>
    let r := g hdr
    if r ≠ NL_OK then (r, false) else sendmsg_wire hdr wire
  | none => sendmsg_wire hdr wire

/-! ### Receive state machine (lib/nl.c: recvmsgs)

The embedding abstracts a received datagram into the list of frames the
`nlmsg_ok`/`nlmsg_next` walk produces, each frame being its header together
with the inner `nlmsgerr` error code (meaningful for `NLMSG_ERROR` frames
whose length admits one).  Out-of-memory on `nlmsg_convert` is not modelled.
A trace of (hook, frame-number) invocation events instruments every call
through a `cb_set` slot or the error hook. -/

/-- One frame of a received datagram. -/
structure Frame where
  hdr : Nlmsghdr
  err : Int
deriving DecidableEq

/-- Hook identifiers, for the invocation trace. -/
inductive Hook where
  | VALID | FINISH | OVERRUN | SKIPPED | ACK | MSG_IN | MSG_OUT
  | INVALID | SEQ_CHECK | SEND_ACK | DUMP_INTR | ERR
deriving DecidableEq

/-- The mutable state of one `recvmsgs` invocation: `sk->s_seq_expect` plus
the local variables `multipart`, `interrupted`, `nrecv`, and the
instrumentation trace. -/
structure RState where
  seq_expect : Nat
  multipart : Bool
  interrupted : Bool
  nrecv : Nat
  trace : List (Hook × Nat)
deriving DecidableEq

/-- Where control goes after the processing of one frame: fall through to the
next frame (the `skip:` label), `goto stop`, or `goto out` with the current
`err`. -/
inductive StepOut where
  | next (st : RState)
  | stop (st : RState)
  | out (st : RState) (e : Int)
deriving DecidableEq

def StepOut.state : StepOut → RState
  | .next st => st
  | .stop st => st
  | .out st _ => st

/-- The `NL_CB_CALL` macro's dispatch on a hook's return value. -/
inductive CbAct where
  | cont | skip | stop | out (e : Int)

def cb_call_sem (r : Int) : CbAct :=
  if r = NL_OK then .cont
  else if r = NL_SKIP then .skip
  else if r = NL_STOP then .stop
  else .out r

/-- Run a bound hook through `NL_CB_CALL`: record the invocation, then
continue with `k`, skip to the next frame, stop, or abort. -/
def nl_cb_invoke (tag : Hook) (g : Nlmsghdr → Int) (hdr : Nlmsghdr) (st : RState)
    (k : RState → StepOut) : StepOut :=
  match cb_call_sem (g hdr) with
  | .cont => k { st with trace := st.trace ++ [(tag, st.nrecv)] }
  | .skip => .next { st with trace := st.trace ++ [(tag, st.nrecv)] }
  | .stop => .stop { st with trace := st.trace ++ [(tag, st.nrecv)] }
  | .out e => .out { st with trace := st.trace ++ [(tag, st.nrecv)] } e

/-- `nlmsg_size(sizeof(struct nlmsgerr))` = 16 + 20 = 36: the least length of
an `NLMSG_ERROR` frame that carries a complete `nlmsgerr`. -/
def nlmsgerr_min_len : Nat := nlmsg_msg_size 20

/-- Terminator dispatch on `nlmsg_type` (the if/else chain after the flag
handling in `recvmsgs`). -/
def rm_dispatch (cb : NlCb) (f : Frame) (st : RState) : StepOut :=
  if f.hdr.nlmsg_type = NLMSG_DONE then
    -- DONE terminates a multipart message
    let st1 := { st with multipart := false }
    match cb.cb_finish with
    | some g => nl_cb_invoke .FINISH g f.hdr st1 .next
    | none => .next st1
  else if f.hdr.nlmsg_type = NLMSG_NOOP then
    match cb.cb_skipped with
    | some g => nl_cb_invoke .SKIPPED g f.hdr st .next
    | none => .next st
  else if f.hdr.nlmsg_type = NLMSG_OVERRUN then
    match cb.cb_overrun with
    | some g => nl_cb_invoke .OVERRUN g f.hdr st .next
    | none => .out st (-(NLE_MSG_OVERFLOW : Int))
  else if f.hdr.nlmsg_type = NLMSG_ERROR then
    if f.hdr.nlmsg_len < nlmsgerr_min_len then
      -- truncated error frame
      match cb.cb_invalid with
      | some g => nl_cb_invoke .INVALID g f.hdr st .next
      | none => .out st (-(NLE_MSG_TRUNC : Int))
    else if f.err ≠ 0 then
      -- error reported back from the kernel
      match cb.cb_err with
      | some h =>
        if h f.err < 0 then
          .out { st with trace := st.trace ++ [(Hook.ERR, st.nrecv)] } (h f.err)
        else if h f.err = NL_SKIP then
          .next { st with trace := st.trace ++ [(Hook.ERR, st.nrecv)] }
        else if h f.err = NL_STOP then
          .out { st with trace := st.trace ++ [(Hook.ERR, st.nrecv)] }
              (-(nl_syserr2nlerr f.err))
        else .next { st with trace := st.trace ++ [(Hook.ERR, st.nrecv)] }
      | none => .out st (-(nl_syserr2nlerr f.err))
    else
      -- inner code 0: kernel ACK; nothing happens when the slot is empty
      match cb.cb_ack with
      | some g => nl_cb_invoke .ACK g f.hdr st .next
      | none => .next st
  else
    match cb.cb_valid with
    | some g => nl_cb_invoke .VALID g f.hdr st .next
    | none => .next st

/-- `NLM_F_ACK` flag handling: the peer asked for an ack; the built-in
fallback is unimplemented (FIXME in the source). -/
def rm_ackflag (cb : NlCb) (f : Frame) (st : RState) : StepOut :=
  if f.hdr.nlmsg_flags &&& NLM_F_ACK ≠ 0 then
    match cb.cb_send_ack with
    | some g => nl_cb_invoke .SEND_ACK g f.hdr st (rm_dispatch cb f)
    | none => rm_dispatch cb f st
  else rm_dispatch cb f st

/-- `NLM_F_DUMP_INTR` flag handling: delegate or remember the inconsistency. -/
def rm_dumpintr (cb : NlCb) (f : Frame) (st : RState) : StepOut :=
  if f.hdr.nlmsg_flags &&& NLM_F_DUMP_INTR ≠ 0 then
    match cb.cb_dump_intr with
    | some g => nl_cb_invoke .DUMP_INTR g f.hdr st (rm_ackflag cb f)
    | none => rm_ackflag cb f { st with interrupted := true }
  else rm_ackflag cb f st

/-- Advance `sk->s_seq_expect` on any terminator-like type (regardless of
`NLM_F_MULTI`), then note the `NLM_F_MULTI` flag. -/
def rm_bookkeep (cb : NlCb) (f : Frame) (st : RState) : StepOut :=
  let st1 := if f.hdr.nlmsg_type = NLMSG_DONE ∨ f.hdr.nlmsg_type = NLMSG_ERROR ∨
                f.hdr.nlmsg_type = NLMSG_NOOP ∨ f.hdr.nlmsg_type = NLMSG_OVERRUN
             then { st with seq_expect := (st.seq_expect + 1) % 2^32 }
             else st
  let st2 := if f.hdr.nlmsg_flags &&& NLM_F_MULTI ≠ 0
             then { st1 with multipart := true }
             else st1
  rm_dumpintr cb f st2

/-- Sequence-number checking: delegate to `SEQ_CHECK` when bound; otherwise,
unless auto-ack mode is disabled, enforce `nlmsg_seq == s_seq_expect`, on
mismatch invoking `INVALID` or failing with `NLE_SEQ_MISMATCH`. -/
def rm_seqcheck (cb : NlCb) (sflags : Nat) (f : Frame) (st : RState) : StepOut :=
  match cb.cb_seq_check with
  | some g => nl_cb_invoke .SEQ_CHECK g f.hdr st (rm_bookkeep cb f)
  | none =>
    if sflags &&& NL_NO_AUTO_ACK = 0 then
      if f.hdr.nlmsg_seq ≠ st.seq_expect then
        match cb.cb_invalid with
        | some g => nl_cb_invoke .INVALID g f.hdr st (rm_bookkeep cb f)
        | none => .out st (-(NLE_SEQ_MISMATCH : Int))
      else rm_bookkeep cb f st
    else rm_bookkeep cb f st

/-- Processing of one valid frame in the `while (nlmsg_ok(hdr, n))` loop:
count it, run `MSG_IN` when bound, then the sequence check and everything
after it. -/
def process_frame (cb : NlCb) (sflags : Nat) (st : RState) (f : Frame) : StepOut :=
  let st1 := { st with nrecv := st.nrecv + 1 }
  match cb.cb_msg_in with
  | some g => nl_cb_invoke .MSG_IN g f.hdr st1 (rm_seqcheck cb sflags f)
  | none => rm_seqcheck cb sflags f st1

/-- How the walk over one datagram's frames ended. -/
inductive DgOut where
  | done (st : RState)
  | stopped (st : RState)
  | errored (st : RState) (e : Int)

def DgOut.state : DgOut → RState
  | .done st => st
  | .stopped st => st
  | .errored st _ => st

/-- The frame walk over one datagram. -/
def process_frames (cb : NlCb) (sflags : Nat) (st : RState) : List Frame → DgOut
  | [] => .done st
  | f :: fs =>
    match process_frame cb sflags st f with
    | .next st' => process_frames cb sflags st' fs
    | .stop st' => .stopped st'
    | .out st' e => .errored st' e

/-- The `stop:`/`out:` epilogue of `recvmsgs`:
```
if (interrupted) err = -NLE_DUMP_INTR;
if (!err) err = nrecv;
return err;
```
-/
def rm_epilogue (st : RState) (e : Int) : Int :=
  let e1 := if st.interrupted then -(NLE_DUMP_INTR : Int) else e
  if e1 = 0 then (st.nrecv : Int) else e1

/-- The outer `continue_reading` loop of `recvmsgs` over successive
datagrams.  An exhausted input models `nl_recv` returning 0, which `recvmsgs`
returns immediately (without the epilogue).  After a datagram is walked to
completion the loop re-enters reading only while `multipart` is set.  The
final `RState` is returned alongside the `int` result for the benefit of the
instrumentation trace. -/
def recvmsgs (cb : NlCb) (sflags : Nat) : List (List Frame) → RState → Int × RState
  | [], st => (0, st)
  | d :: rest, st =>
    match process_frames cb sflags st d with
    | .done st' =>
      if st'.multipart then recvmsgs cb sflags rest st'
      else (rm_epilogue st' 0, st')
    | .stopped st' => (rm_epilogue st' 0, st')
    | .errored st' e => (rm_epilogue st' e, st')

/-- `recvmsgs(sk, cb)` from the initial state: `s_seq_expect = seq0`, no
multipart, not interrupted, zero frames received. -/
def recvmsgs_run (cb : NlCb) (sflags : Nat) (seq0 : Nat)
    (dgs : List (List Frame)) : Int × RState :=
  recvmsgs cb sflags dgs
    { seq_expect := seq0, multipart := false, interrupted := false,
      nrecv := 0, trace := [] }

/-! ### Arithmetic helper lemmas -/

theorem two_pow_sub_two_pow (n k : Nat) (hk : k ≤ n) :
    2^n - 2^k = 2^k * (2^(n-k) - 1) := by
  have h1 : 2^k * 2^(n-k) = 2^n := by
    rw [← pow_add, Nat.add_sub_cancel' hk]
  rw [Nat.mul_sub_one, h1]

theorem testBit_div_pow (x k m : Nat) : (x / 2^k).testBit m = x.testBit (k + m) := by
  rw [← Nat.shiftRight_eq_div_pow, Nat.testBit_shiftRight]

/-- Masking with `2^n - 2^k` clears the low `k` bits of any `x < 2^n`. -/
theorem land_two_pow_sub (x n k : Nat) (hk : k ≤ n) (hx : x < 2^n) :
    x &&& (2^n - 2^k) = 2^k * (x / 2^k) := by
  apply Nat.eq_of_testBit_eq
  intro j
  rw [Nat.testBit_and, two_pow_sub_two_pow n k hk,
      Nat.testBit_mul_pow_two, Nat.testBit_mul_pow_two,
      Nat.testBit_two_pow_sub_one, testBit_div_pow]
  rcases Nat.lt_or_ge j k with hjk | hjk
  · simp [Nat.not_le_of_lt hjk]
  · rcases Nat.lt_or_ge j n with hjn | hjn
    · have h1 : j - k < n - k := by omega
      have h2 : k + (j - k) = j := by omega
      simp [hjk, h1, h2]
    · have hxj : x < 2^j :=
        lt_of_lt_of_le hx (Nat.pow_le_pow_right (by norm_num) hjn)
      have hkj : k + (j - k) = j := by omega
      simp [hkj, Nat.testBit_lt_two_pow hxj]

theorem land_mask_div (x n k : Nat) (hk : k ≤ n) (hx : x < 2^n) :
    x &&& (2^n - 2^k) = x - x % 2^k := by
  rw [land_two_pow_sub x n k hk hx]
  have h := Nat.div_add_mod x (2^k)
  omega

/-- `NLMSG_ALIGN` rounds up to the next multiple of 4 (absent 32-bit
wraparound). -/
theorem NLMSG_ALIGN_eq (len : Nat) (h : len + 3 < 2^32) :
    NLMSG_ALIGN len = 4 * ((len + 3) / 4) := by
  unfold NLMSG_ALIGN
  rw [Nat.mod_eq_of_lt h]
  have h4 : (2^32 - 4 : Nat) = 2^32 - 2^2 := by norm_num
  rw [h4, land_two_pow_sub (len + 3) 32 2 (by norm_num) h]
  norm_num

theorem NLMSG_ALIGN_ge (len : Nat) (h : len + 3 < 2^32) : len ≤ NLMSG_ALIGN len := by
  rw [NLMSG_ALIGN_eq len h]
  have h1 := Nat.div_add_mod (len + 3) 4
  have h2 : (len + 3) % 4 < 4 := Nat.mod_lt _ (by norm_num)
  omega

theorem NLMSG_ALIGN_mod (len : Nat) (h : len + 3 < 2^32) :
    NLMSG_ALIGN len % 4 = 0 := by
  rw [NLMSG_ALIGN_eq len h]
  exact Nat.mul_mod_right 4 _

theorem NLMSG_ALIGN_of_aligned (len : Nat) (h : len + 3 < 2^32)
    (hd : len % 4 = 0) : NLMSG_ALIGN len = len := by
  rw [NLMSG_ALIGN_eq len h]
  omega

/-- For a power-of-two pad the bit-mask in `nlmsg_reserve` computes the exact
round-up of `len` to a multiple of the pad. -/
theorem reserve_tlen_pow (len k : Nat) (hk : k ≤ 63) (h : len + 2^k ≤ 2^64) :
    reserve_tlen len (2^k) = 2^k * ((len + 2^k - 1) / 2^k) := by
  have hpos : 0 < 2^k := Nat.two_pow_pos k
  have hne : 2^k ≠ 0 := Nat.pos_iff_ne_zero.mp hpos
  unfold reserve_tlen
  rw [if_neg hne]
  have h1 : len + (2^k - 1) = len + 2^k - 1 := by omega
  have h2 : len + 2^k - 1 < 2^64 := by omega
  rw [h1, Nat.mod_eq_of_lt h2]
  exact land_two_pow_sub _ 64 k (by omega) h2

theorem reserve_tlen_pow_ge (len k : Nat) (hk : k ≤ 63) (h : len + 2^k ≤ 2^64) :
    len ≤ reserve_tlen len (2^k) := by
  rw [reserve_tlen_pow len k hk h]
  have hpos : 0 < 2^k := Nat.two_pow_pos k
  have h1 := Nat.div_add_mod (len + 2^k - 1) (2^k)
  have h2 : (len + 2^k - 1) % 2^k < 2^k := Nat.mod_lt _ hpos
  omega

theorem reserve_tlen_four (len : Nat) (h : len + 4 ≤ 2^64) :
    reserve_tlen len 4 = 4 * ((len + 3) / 4) := by
  have h4 : (4 : Nat) = 2^2 := by norm_num
  rw [h4]
  rw [reserve_tlen_pow len 2 (by norm_num) (by norm_num at h ⊢; omega)]
  norm_num

theorem reserve_tlen_zero (len : Nat) : reserve_tlen len 0 = len := rfl

/-! ### List helper lemmas -/

theorem listResize_length (l : List (Option Nat)) (n : Nat) :
    (listResize l n).length = n := by
  unfold listResize
  rw [List.length_append, List.length_take, List.length_replicate]
  omega

theorem listWrite_length (l : List (Option Nat)) (s : Nat) (d : List Nat) :
    (listWrite l s d).length = l.length := by
  unfold listWrite
  simp only [List.length_append, List.length_take, List.length_drop,
    List.length_map]
  omega

theorem getD_append_right_len (l₁ l₂ : List (Option Nat)) (d : Option Nat) (n : Nat)
    (h : l₁.length ≤ n) : (l₁ ++ l₂).getD n d = l₂.getD (n - l₁.length) d := by
  induction l₁ generalizing n with
  | nil => simp
  | cons a t ih =>
    cases n with
    | zero => simp at h
    | succ n =>
      simp only [List.cons_append, List.getD_cons_succ, List.length_cons,
        Nat.succ_sub_succ]
      exact ih n (by simpa using h)

theorem getD_replicate_lt (n i : Nat) (a d : Option Nat) (h : i < n) :
    (List.replicate n a).getD i d = a := by
  induction n generalizing i with
  | zero => omega
  | succ n ih =>
    cases i with
    | zero => rfl
    | succ i => simpa [List.replicate_succ] using ih i (by omega)

/-! ### Trace monotonicity: processing only appends to the invocation trace -/

theorem trace_mono_invoke {ev : Hook × Nat} {tag : Hook} {g : Nlmsghdr → Int}
    {hdr : Nlmsghdr} {st : RState} {k : RState → StepOut}
    (hk : ∀ s : RState, ev ∈ s.trace → ev ∈ (k s).state.trace)
    (h : ev ∈ st.trace) : ev ∈ (nl_cb_invoke tag g hdr st k).state.trace := by
  have h' : ev ∈ st.trace ++ [(tag, st.nrecv)] := List.mem_append_left _ h
  unfold nl_cb_invoke
  cases cb_call_sem (g hdr) with
  | cont => exact hk _ h'
  | skip => exact h'
  | stop => exact h'
  | out e => exact h'

theorem trace_mono_dispatch (cb : NlCb) (f : Frame) (st : RState)
    {ev : Hook × Nat} (h : ev ∈ st.trace) :
    ev ∈ (rm_dispatch cb f st).state.trace := by
  unfold rm_dispatch
  repeat' split
  all_goals
    first
      | exact trace_mono_invoke (fun s hs => hs) h
      | exact List.mem_append_left _ h
      | exact h

theorem trace_mono_ackflag (cb : NlCb) (f : Frame) (st : RState)
    {ev : Hook × Nat} (h : ev ∈ st.trace) :
    ev ∈ (rm_ackflag cb f st).state.trace := by
  unfold rm_ackflag
  repeat' split
  all_goals
    first
      | exact trace_mono_invoke (fun s hs => trace_mono_dispatch cb f s hs) h
      | exact trace_mono_dispatch cb f st h

theorem trace_mono_dumpintr (cb : NlCb) (f : Frame) (st : RState)
    {ev : Hook × Nat} (h : ev ∈ st.trace) :
    ev ∈ (rm_dumpintr cb f st).state.trace := by
  unfold rm_dumpintr
  repeat' split
  all_goals
    first
      | exact trace_mono_invoke (fun s hs => trace_mono_ackflag cb f s hs) h
      | exact trace_mono_ackflag cb f _ h

theorem trace_mono_bookkeep (cb : NlCb) (f : Frame) (st : RState)
    {ev : Hook × Nat} (h : ev ∈ st.trace) :
    ev ∈ (rm_bookkeep cb f st).state.trace := by
  unfold rm_bookkeep
  apply trace_mono_dumpintr
  repeat' split
  all_goals exact h

theorem trace_mono_seqcheck (cb : NlCb) (sflags : Nat) (f : Frame) (st : RState)
    {ev : Hook × Nat} (h : ev ∈ st.trace) :
    ev ∈ (rm_seqcheck cb sflags f st).state.trace := by
  unfold rm_seqcheck
  repeat' split
  all_goals
    first
      | exact trace_mono_invoke (fun s hs => trace_mono_bookkeep cb f s hs) h
      | exact trace_mono_bookkeep cb f st h
      | exact h

theorem trace_mono_frame (cb : NlCb) (sflags : Nat) (st : RState) (f : Frame)
    {ev : Hook × Nat} (h : ev ∈ st.trace) :
    ev ∈ (process_frame cb sflags st f).state.trace := by
  unfold process_frame
  split
  · exact trace_mono_invoke (fun s hs => trace_mono_seqcheck cb sflags f s hs) h
  · exact trace_mono_seqcheck cb sflags f _ h

theorem trace_mono_frames (cb : NlCb) (sflags : Nat) (l : List Frame)
    (st : RState) {ev : Hook × Nat} (h : ev ∈ st.trace) :
    ev ∈ (process_frames cb sflags st l).state.trace := by
  induction l generalizing st with
  | nil => exact h
  | cons f fs ih =>
    unfold process_frames
    have hf := trace_mono_frame cb sflags st f h
    cases hp : process_frame cb sflags st f with
    | next st' => exact ih st' (by rw [hp] at hf; exact hf)
    | stop st' => rw [hp] at hf; exact hf
    | out st' e => rw [hp] at hf; exact hf

theorem trace_mono_recvmsgs (cb : NlCb) (sflags : Nat) (dgs : List (List Frame))
    (st : RState) {ev : Hook × Nat} (h : ev ∈ st.trace) :
    ev ∈ (recvmsgs cb sflags dgs st).2.trace := by
  induction dgs generalizing st with
  | nil => exact h
  | cons d rest ih =>
    unfold recvmsgs
    have hf := trace_mono_frames cb sflags d st h
    cases hp : process_frames cb sflags st d with
    | done st' =>
      rw [hp] at hf
      by_cases hm : st'.multipart
      · simpa [hm] using ih st' hf
      · simpa [hm] using hf
    | stopped st' => rw [hp] at hf; exact hf
    | errored st' e => rw [hp] at hf; exact hf

/-- Lifting an event from the processing of the first frame of a datagram to
the end of the frame walk. -/
theorem frames_cons_trace (cb : NlCb) (sflags : Nat) (st : RState) (f : Frame)
    (fs : List Frame) {ev : Hook × Nat}
    (h : ev ∈ (process_frame cb sflags st f).state.trace) :
    ev ∈ (process_frames cb sflags st (f :: fs)).state.trace := by
  unfold process_frames
  cases hp : process_frame cb sflags st f with
  | next st' => exact trace_mono_frames cb sflags fs st' (by rw [hp] at h; exact h)
  | stop st' => rw [hp] at h; exact h
  | out st' e => rw [hp] at h; exact h

/-- Lifting an event from the walk of the first datagram to the end of the
receive loop. -/
theorem recvmsgs_cons_trace (cb : NlCb) (sflags : Nat) (st : RState)
    (d : List Frame) (rest : List (List Frame)) {ev : Hook × Nat}
    (h : ev ∈ (process_frames cb sflags st d).state.trace) :
    ev ∈ (recvmsgs cb sflags (d :: rest) st).2.trace := by
  unfold recvmsgs
  cases hp : process_frames cb sflags st d with
  | done st' =>
    rw [hp] at h
    by_cases hm : st'.multipart
    · simpa [hm] using trace_mono_recvmsgs cb sflags rest st' h
    · simpa [hm] using h
  | stopped st' => rw [hp] at h; exact h
  | errored st' e => rw [hp] at h; exact h

/-! ### Bitwise-or absorption helpers (for auto-completion idempotence) -/

theorem lor_one_four_absorb (f : Nat) :
    (((f ||| 1) ||| 4) ||| 1) ||| 4 = (f ||| 1) ||| 4 := by
  apply Nat.eq_of_testBit_eq
  intro i
  simp only [Nat.testBit_or]
  generalize f.testBit i = a
  generalize Nat.testBit 1 i = b
  generalize Nat.testBit 4 i = c
  cases a <;> cases b <;> cases c <;> rfl

theorem lor_one_absorb (f : Nat) : (f ||| 1) ||| 1 = f ||| 1 := by
  rw [Nat.or_assoc, Nat.or_self]

/-! ### Claim theorems -/

/-- C3 (status: code_bug, failing input): `nlmsg_ok` is claimed to return
false whenever `remaining` is negative, but at `remaining = -4` with a header
of length 16 the C comparisons promote the negative `remaining` to unsigned
(`2^64 - 4` and `2^32 - 4`), so the code returns true while the predicate the
spec states (and the function's own documented purpose, "check if the netlink
message fits into the remaining bytes") requires false. -/
theorem nlmsg_ok_negative_remaining :
    nlmsg_ok { nlmsg_len := 16, nlmsg_type := 16, nlmsg_flags := 0,
               nlmsg_seq := 0, nlmsg_pid := 0 } (-4) = true ∧
    nlmsg_ok_spec { nlmsg_len := 16, nlmsg_type := 16, nlmsg_flags := 0,
                    nlmsg_seq := 0, nlmsg_pid := 0 } (-4) = false := by
  constructor
  · decide
  · decide

/-- C4 (status: confirmed): `nl_complete_msg` performs exactly the five
documented updates — port id from the socket when it is the `NL_AUTO_PORT`
sentinel, sequence from `s_seq_next` (post-incremented) when it is the
`NL_AUTO_SEQ` sentinel, protocol from the socket when unset (−1), `REQUEST`
OR-ed in always and `ACK` OR-ed in unless `NL_NO_AUTO_ACK` — and changes no
other field of the message or the socket: the result is pinned field by
field. -/
theorem nl_complete_msg_spec (sk : NlSockS) (m : NlMsg) :
    nl_complete_msg sk m =
    ({ sk with
       s_seq_next := if m.nm_nlh.nlmsg_seq = NL_AUTO_SEQ
                     then (sk.s_seq_next + 1) % 2^32 else sk.s_seq_next },
     { nm_nlh := { nlmsg_len := m.nm_nlh.nlmsg_len
                   nlmsg_type := m.nm_nlh.nlmsg_type
                   nlmsg_flags := (m.nm_nlh.nlmsg_flags ||| NLM_F_REQUEST) |||
                     (if sk.s_flags &&& NL_NO_AUTO_ACK = 0 then NLM_F_ACK else 0)
                   nlmsg_seq := if m.nm_nlh.nlmsg_seq = NL_AUTO_SEQ
                                then sk.s_seq_next else m.nm_nlh.nlmsg_seq
                   nlmsg_pid := if m.nm_nlh.nlmsg_pid = NL_AUTO_PORT
                                then sk.s_local_pid else m.nm_nlh.nlmsg_pid }
       nm_payload := m.nm_payload
       nm_protocol := if m.nm_protocol = -1 then sk.s_proto
                      else m.nm_protocol }) := by
  unfold nl_complete_msg
  by_cases h1 : m.nm_nlh.nlmsg_pid = NL_AUTO_PORT <;>
    by_cases h2 : m.nm_nlh.nlmsg_seq = NL_AUTO_SEQ <;>
      by_cases h3 : m.nm_protocol = -1 <;>
        by_cases h4 : sk.s_flags &&& NL_NO_AUTO_ACK = 0 <;>
          simp [h1, h2, h3, h4, Nat.or_zero]

/-- C8 (status: confirmed): once the sentinels are resolved — the header's
port id and sequence number differ from `NL_AUTO_PORT`/`NL_AUTO_SEQ` and the
protocol is set — running `nl_complete_msg` a second time changes neither the
message nor the socket (in particular `s_seq_next` is not incremented again);
the only rewrites it performs, OR-ing `REQUEST`/`ACK` into the flags, are
idempotent. -/
theorem nl_complete_msg_idempotent (sk : NlSockS) (m : NlMsg)
    (hp : m.nm_nlh.nlmsg_pid ≠ NL_AUTO_PORT)
    (hs : m.nm_nlh.nlmsg_seq ≠ NL_AUTO_SEQ)
    (hpr : m.nm_protocol ≠ -1) :
    nl_complete_msg (nl_complete_msg sk m).1 (nl_complete_msg sk m).2 =
      nl_complete_msg sk m := by
  unfold nl_complete_msg
  by_cases h4 : sk.s_flags &&& NL_NO_AUTO_ACK = 0 <;>
    simp [hp, hs, hpr, h4, NLM_F_REQUEST, NLM_F_ACK, lor_one_four_absorb,
      lor_one_absorb]

/-- C8 witness: a concrete resolved message is a fixed point of a second
auto-completion. -/
theorem nl_complete_msg_idempotent_witness :
    nl_complete_msg
      (nl_complete_msg ⟨33, 0, 100, 100, 0⟩
        ⟨⟨16, 18, 0, 7, 33⟩, [], 0⟩).1
      (nl_complete_msg ⟨33, 0, 100, 100, 0⟩
        ⟨⟨16, 18, 0, 7, 33⟩, [], 0⟩).2 =
    nl_complete_msg ⟨33, 0, 100, 100, 0⟩ ⟨⟨16, 18, 0, 7, 33⟩, [], 0⟩ :=
  nl_complete_msg_idempotent ⟨33, 0, 100, 100, 0⟩ ⟨⟨16, 18, 0, 7, 33⟩, [], 0⟩
    (by decide) (by decide) (by decide)

/-- C9 (status: confirmed): `nl_cb_get` increments the reference count by
exactly one and returns the same set (the table is untouched); `nl_cb_put`
on a null pointer does nothing; on a live set with count ≥ 1 it decrements by
exactly one and frees precisely when the decremented count reaches zero — so
a set fresh from `nl_cb_alloc` (count 1) is freed by its first put. -/
theorem nl_cb_refcount_spec (cb : CbBox) (table : Nat)
    (hr : 1 ≤ cb.cb_refcnt) :
    (nl_cb_get cb).cb_refcnt = cb.cb_refcnt + 1 ∧
    (nl_cb_get cb).cb_table = cb.cb_table ∧
    nl_cb_put none = PutResult.noop ∧
    (nl_cb_put (some cb) =
      if cb.cb_refcnt = 1 then PutResult.freed
      else PutResult.kept { cb with cb_refcnt := cb.cb_refcnt - 1 }) ∧
    nl_cb_put (some (nl_cb_alloc_box table)) = PutResult.freed := by
  refine ⟨rfl, rfl, rfl, ?_, by simp [nl_cb_put, nl_cb_alloc_box]⟩
  unfold nl_cb_put
  by_cases h : cb.cb_refcnt = 1
  · simp [h]
  · have h1 : ¬ (cb.cb_refcnt - 1 < 0) := by omega
    have h2 : ¬ (cb.cb_refcnt - 1 ≤ 0) := by omega
    simp [h, h1, h2]

/-- C9 witness: a set allocated with refcount 1 is freed by its first put,
and `get` bumps the count of a concrete set to 2. -/
theorem nl_cb_refcount_spec_witness :
    (nl_cb_get ⟨1, 42⟩).cb_refcnt = 2 ∧
    nl_cb_put (some (⟨1, 42⟩ : CbBox)) = PutResult.freed := by
  have h := nl_cb_refcount_spec ⟨1, 42⟩ 42 (by decide)
  refine ⟨h.1, ?_⟩
  rw [h.2.2.2.1]
  decide

/-- C10 (status: confirmed): on the send path, a bound `MSG_OUT` hook that
returns anything other than `NL_OK` makes `nl_sendmsg` return that value with
the transport never invoked; and since `NL_SKIP`/`NL_STOP` are the positive
values 1 and 2, a send suppressed by a hook returning `NL_SKIP` produces the
same public return value as a genuine 1-octet transport write — the two are
distinguishable only by whether the wire was touched, which the public
interface does not expose. -/
theorem nl_sendmsg_msg_out_suppression :
    (∀ (cb : NlCb) (hdr : Nlmsghdr) (wire : Nlmsghdr → Int) (g : Nlmsghdr → Int),
        cb.cb_msg_out = some g → g hdr ≠ NL_OK →
        nl_sendmsg cb hdr wire = (g hdr, false)) ∧
    NL_SKIP = 1 ∧ NL_STOP = 2 ∧
    (∀ (hdr : Nlmsghdr) (wire : Nlmsghdr → Int) (g : Nlmsghdr → Int),
        g hdr = NL_SKIP → wire hdr = 1 →
        (nl_sendmsg { cb_msg_out := some g } hdr wire).1 =
          (nl_sendmsg {} hdr wire).1 ∧
        (nl_sendmsg { cb_msg_out := some g } hdr wire).2 = false ∧
        (nl_sendmsg {} hdr wire).2 = true) := by
  refine ⟨?_, rfl, rfl, ?_⟩
  · intro cb hdr wire g hcb hg
    unfold nl_sendmsg
    rw [hcb]
    simp [hg]
  · intro hdr wire g hg hw
    unfold nl_sendmsg sendmsg_wire
    simp [hg, hw]
    decide

/-- C10 witness: with a `MSG_OUT` hook constantly returning `NL_SKIP`, a
concrete send is suppressed and returns 1 without touching the wire. -/
theorem nl_sendmsg_msg_out_suppression_witness :
    nl_sendmsg { cb_msg_out := some (fun _ => NL_SKIP) }
      { nlmsg_len := 16, nlmsg_type := 18, nlmsg_flags := 5,
        nlmsg_seq := 7, nlmsg_pid := 33 } (fun _ => 1) = (NL_SKIP, false) :=
  nl_sendmsg_msg_out_suppression.1 _
    { nlmsg_len := 16, nlmsg_type := 18, nlmsg_flags := 5,
      nlmsg_seq := 7, nlmsg_pid := 33 } (fun _ => 1) (fun _ => NL_SKIP)
    rfl (by decide)

/-- Shared helper: `nlmsg_reserve` re-establishes header-length = buffer-size
(the realloc size is computed from the header length, not from the previous
allocation), provided the grow amount does not fall below `len` and the
32-bit header field does not wrap. -/
theorem reserve_header_eq_buffer (m : NlMsg) (len pad : Nat)
    (hm16 : NLMSG_HDRLEN ≤ m.nm_nlh.nlmsg_len)
    (htle : len ≤ reserve_tlen len pad)
    (hwrap : m.nm_nlh.nlmsg_len + reserve_tlen len pad < 2^32) :
    (nlmsg_reserve m len pad).1.nm_nlh.nlmsg_len =
      (nlmsg_reserve m len pad).1.buffer_len := by
  simp only [nlmsg_reserve, NlMsg.buffer_len, List.length_append,
    listResize_length, List.length_replicate]
  rw [Nat.mod_eq_of_lt hwrap]
  omega

/-- C2 (status: corrected, counterexample): the claimed invariant
`header.length == buffer_len ∧ buffer_len % 4 == 0` fails after
`nlmsg_convert` of a received frame whose length is not 4-aligned: converting
a 17-octet frame allocates `NLMSG_ALIGN(17) = 20` octets but the `memcpy`
copies the original header, so the header says 17 while the buffer has 20
octets. -/
theorem msg_length_invariant_counterexample :
    ¬ msg_invariant (nlmsg_convert
      { nlmsg_len := 17, nlmsg_type := 16, nlmsg_flags := 0,
        nlmsg_seq := 0, nlmsg_pid := 0 } [7]) := by decide

/-- C2 (status: corrected, amended): after allocation the invariant holds;
after `nlmsg_convert` the header keeps the received frame's length while the
buffer holds `NLMSG_ALIGN` of it — always divisible by 4 but equal to the
header length only when the frame length was 4-aligned; `nlmsg_reserve` (and
with it `nlmsg_append` and `nlmsg_put`) re-establishes header-length =
buffer-size, and preserves divisibility by 4 when called with the
`NLMSG_ALIGNTO` pad on a 4-aligned message.  (A pad-0 reserve of a
non-multiple-of-4 length keeps the equality but breaks the divisibility, so
divisibility is only claimed for pad = `NLMSG_ALIGNTO`.) -/
theorem msg_length_invariant_amended
    (h : Nlmsghdr) (data : List Nat) (m : NlMsg) (len pad : Nat)
    (d2 : List Nat) (pid seq ty fl : Nat) (payload : Int)
    (hh16 : NLMSG_HDRLEN ≤ h.nlmsg_len)
    (hh32 : h.nlmsg_len + 3 < 2^32)
    (hdata : data.length = h.nlmsg_len - NLMSG_HDRLEN)
    (hm16 : NLMSG_HDRLEN ≤ m.nm_nlh.nlmsg_len)
    (htle : len ≤ reserve_tlen len pad)
    (hwrap : m.nm_nlh.nlmsg_len + reserve_tlen len pad < 2^32)
    (htle2 : d2.length ≤ reserve_tlen d2.length pad)
    (hwrap2 : m.nm_nlh.nlmsg_len + reserve_tlen d2.length pad < 2^32)
    (hpay : payload.toNat + 4 ≤ 2^32)
    (hwrap3 : m.nm_nlh.nlmsg_len + reserve_tlen payload.toNat NLMSG_ALIGNTO < 2^32) :
    msg_invariant nlmsg_alloc ∧
    (∀ hd : Option Nlmsghdr, msg_invariant (nlmsg_inherit hd)) ∧
    ((nlmsg_convert h data).nm_nlh.nlmsg_len = h.nlmsg_len ∧
     (nlmsg_convert h data).buffer_len = NLMSG_ALIGN h.nlmsg_len ∧
     (nlmsg_convert h data).buffer_len % 4 = 0 ∧
     (h.nlmsg_len % 4 = 0 → msg_invariant (nlmsg_convert h data))) ∧
    ((nlmsg_reserve m len pad).1.nm_nlh.nlmsg_len =
       (nlmsg_reserve m len pad).1.buffer_len ∧
     (pad = NLMSG_ALIGNTO → m.nm_nlh.nlmsg_len % 4 = 0 →
        msg_invariant (nlmsg_reserve m len pad).1)) ∧
    ((nlmsg_append m d2 pad).nm_nlh.nlmsg_len =
       (nlmsg_append m d2 pad).buffer_len) ∧
    (m.nm_nlh.nlmsg_len = m.buffer_len →
       (nlmsg_put m pid seq ty payload fl).nm_nlh.nlmsg_len =
         (nlmsg_put m pid seq ty payload fl).buffer_len) := by
  have halign_ge := NLMSG_ALIGN_ge h.nlmsg_len hh32
  have halign_mod := NLMSG_ALIGN_mod h.nlmsg_len hh32
  have hpow : (2:Nat)^32 + 4 ≤ 2^64 := by norm_num
  have hconv_buf : (nlmsg_convert h data).buffer_len = NLMSG_ALIGN h.nlmsg_len := by
    simp only [nlmsg_convert, nlmsg_alloc_buf, NlMsg.buffer_len,
      List.length_append, List.length_map, List.length_drop,
      List.length_replicate]
    omega
  refine ⟨by decide, ?_, ⟨rfl, hconv_buf, ?_, ?_⟩, ⟨?_, ?_⟩, ?_, ?_⟩
  · intro hd
    cases hd with
    | none => decide
    | some hh =>
      refine ⟨rfl, ?_⟩
      have hb : (nlmsg_inherit (some hh)).buffer_len = 16 := rfl
      rw [hb]
  · rw [hconv_buf]; exact halign_mod
  · intro hmod
    refine ⟨?_, by rw [hconv_buf]; exact halign_mod⟩
    rw [hconv_buf, NLMSG_ALIGN_of_aligned h.nlmsg_len hh32 hmod]
    rfl
  · exact reserve_header_eq_buffer m len pad hm16 htle hwrap
  · intro hpad hmod
    subst hpad
    have hl64 : len + 4 ≤ 2^64 := by omega
    have htl4 : reserve_tlen len NLMSG_ALIGNTO = 4 * ((len + 3) / 4) :=
      reserve_tlen_four len hl64
    have heq := reserve_header_eq_buffer m len NLMSG_ALIGNTO hm16 htle hwrap
    have hlen4 : (nlmsg_reserve m len NLMSG_ALIGNTO).1.nm_nlh.nlmsg_len % 4 = 0 := by
      show ((m.nm_nlh.nlmsg_len + reserve_tlen len NLMSG_ALIGNTO) % 2^32) % 4 = 0
      rw [Nat.mod_eq_of_lt hwrap, htl4]
      omega
    exact ⟨heq, heq ▸ hlen4⟩
  · have heq := reserve_header_eq_buffer m d2.length pad hm16 htle2 hwrap2
    simp only [nlmsg_append, NlMsg.buffer_len, listWrite_length] at heq ⊢
    exact heq
  · intro hmb
    simp only [nlmsg_put]
    by_cases hp0 : 0 < payload
    · rw [if_pos hp0]
      have h4eq : reserve_tlen payload.toNat NLMSG_ALIGNTO =
          4 * ((payload.toNat + 3) / 4) :=
        reserve_tlen_four payload.toNat (by omega)
      have htle3 : payload.toNat ≤ reserve_tlen payload.toNat NLMSG_ALIGNTO := by
        rw [h4eq]
        omega
      exact reserve_header_eq_buffer _ payload.toNat NLMSG_ALIGNTO hm16 htle3 hwrap3
    · rw [if_neg hp0]
      exact hmb

/-- C2 witness: a concrete run of the amended invariant — the fresh message
satisfies it and so does the conversion of a 4-aligned 20-octet frame. -/
theorem msg_length_invariant_amended_witness :
    msg_invariant nlmsg_alloc ∧
    msg_invariant (nlmsg_convert
      { nlmsg_len := 20, nlmsg_type := 16, nlmsg_flags := 0,
        nlmsg_seq := 0, nlmsg_pid := 0 } [1, 2, 3, 4]) := by
  have hth := msg_length_invariant_amended
    { nlmsg_len := 20, nlmsg_type := 16, nlmsg_flags := 0,
      nlmsg_seq := 0, nlmsg_pid := 0 } [1, 2, 3, 4] nlmsg_alloc 4 4 [9]
    0 0 16 0 1
    (by decide) (by decide) (by decide) (by decide) (by decide) (by decide)
    (by decide) (by decide) (by decide) (by decide)
  exact ⟨hth.1, hth.2.2.1.2.2.2 (by decide)⟩

/-- C5 (status: corrected, counterexample): the claim says a successful
`reserve(m, n, p)` grows the header length by `align(n, p)` for every
`p > 0`, but the code computes the grow amount with the bit mask
`(n + p - 1) & ~(p - 1)`, which equals the round-up only for power-of-two
pads: at `n = 1, p = 3` the code grows the header by 1 octet while
`align(1, 3) = 3`. -/
theorem nlmsg_reserve_pad3_counterexample :
    (nlmsg_reserve nlmsg_alloc 1 3).1.nm_nlh.nlmsg_len =
      nlmsg_alloc.nm_nlh.nlmsg_len + 1 ∧
    spec_align 1 3 = 3 ∧
    (nlmsg_reserve nlmsg_alloc 1 3).1.nm_nlh.nlmsg_len ≠
      nlmsg_alloc.nm_nlh.nlmsg_len + spec_align 1 3 := by
  refine ⟨by decide, by decide, by decide⟩

/-- C5 (status: corrected, amended): for `reserve(m, n, p)` with `p = 0` the
header grows by exactly `n`, and for any power-of-two `p` the bit-mask grow
amount `(n + p - 1) & ~(p - 1)` equals the exact round-up
`p * ((n + p - 1) / p)` — in particular `align4` for the library's
`NLMSG_ALIGNTO` — so the reserved region (returned at the old header-length
offset) has size ≥ `n`, the header length grows by exactly that aligned
amount (modulo the 32-bit header field), and every byte of the aligned region
beyond offset `n` is zeroed by the `memset`. -/
theorem nlmsg_reserve_amended (m : NlMsg) (len pad k : Nat)
    (hbuf : NLMSG_HDRLEN ≤ m.nm_nlh.nlmsg_len)
    (hpow : pad = 2^k) (hk : k ≤ 63) (hlen : len + pad ≤ 2^32) :
    reserve_tlen len pad = pad * ((len + pad - 1) / pad) ∧
    len ≤ reserve_tlen len pad ∧
    reserve_tlen len pad < len + pad ∧
    reserve_tlen len pad % pad = 0 ∧
    (nlmsg_reserve m len pad).2 = m.nm_nlh.nlmsg_len ∧
    (nlmsg_reserve m len pad).1.nm_nlh.nlmsg_len =
      (m.nm_nlh.nlmsg_len + reserve_tlen len pad) % 2^32 ∧
    (∀ i, len ≤ i → i < reserve_tlen len pad →
       (nlmsg_reserve m len pad).1.nm_payload.getD
         (m.nm_nlh.nlmsg_len - NLMSG_HDRLEN + i) none = some 0) ∧
    reserve_tlen len 0 = len := by
  subst hpow
  have hp64 : (2:Nat)^32 ≤ 2^64 := by norm_num
  have h64 : len + 2^k ≤ 2^64 := le_trans hlen hp64
  have heq := reserve_tlen_pow len k hk h64
  have hge := reserve_tlen_pow_ge len k hk h64
  have hppos : 0 < (2:Nat)^k := Nat.two_pow_pos k
  refine ⟨heq, hge, ?_, ?_, rfl, rfl, ?_, rfl⟩
  · rw [heq]
    have hd := Nat.div_add_mod (len + 2^k - 1) (2^k)
    omega
  · rw [heq]
    exact Nat.mul_mod_right _ _
  · intro i hi1 hi2
    simp only [nlmsg_reserve]
    rw [getD_append_right_len _ _ _ _ (by rw [listResize_length]; omega)]
    rw [listResize_length]
    apply getD_replicate_lt
    omega

/-- C5 witness: reserving 5 octets with pad 4 on a fresh message grows the
header by 8 = align4(5) and zeroes the padding byte at offset 6 of the
reserved region. -/
theorem nlmsg_reserve_amended_witness :
    5 ≤ reserve_tlen 5 4 ∧
    (nlmsg_reserve nlmsg_alloc 5 4).1.nm_nlh.nlmsg_len =
      (nlmsg_alloc.nm_nlh.nlmsg_len + reserve_tlen 5 4) % 2^32 ∧
    (nlmsg_reserve nlmsg_alloc 5 4).1.nm_payload.getD
      (nlmsg_alloc.nm_nlh.nlmsg_len - NLMSG_HDRLEN + 6) none = some 0 := by
  have hth := nlmsg_reserve_amended nlmsg_alloc 5 4 2
    (by decide) (by decide) (by decide) (by decide)
  exact ⟨hth.2.1, hth.2.2.2.2.2.1, hth.2.2.2.2.2.2.1 6 (by decide) (by decide)⟩

/-- C1 (status: confirmed): in `recvmsgs`, when `NL_NO_AUTO_ACK` is clear and
no `SEQ_CHECK` hook is bound (and the frame is not intercepted earlier by a
`MSG_IN` hook), a frame whose sequence number differs from `s_seq_expect`
causes the `INVALID` hook to be invoked when one is bound, and otherwise the
loop to abort with `-NLE_SEQ_MISMATCH`; in that mismatch-abort case the
`VALID` hook is never invoked for the frame (nor any other). -/
theorem recvmsgs_seq_check_mismatch (cb : NlCb) (sflags seq0 : Nat) (f : Frame)
    (fs : List Frame) (rest : List (List Frame))
    (hsc : cb.cb_seq_check = none) (hmi : cb.cb_msg_in = none)
    (hack : sflags &&& NL_NO_AUTO_ACK = 0)
    (hseq : f.hdr.nlmsg_seq ≠ seq0) :
    (∀ g, cb.cb_invalid = some g →
       (Hook.INVALID, 1) ∈
         (recvmsgs_run cb sflags seq0 ((f :: fs) :: rest)).2.trace) ∧
    (cb.cb_invalid = none →
       (recvmsgs_run cb sflags seq0 ((f :: fs) :: rest)).1 =
         -(NLE_SEQ_MISMATCH : Int) ∧
       ∀ n, (Hook.VALID, n) ∉
         (recvmsgs_run cb sflags seq0 ((f :: fs) :: rest)).2.trace) := by
  constructor
  · intro g hg
    apply recvmsgs_cons_trace
    apply frames_cons_trace
    have hpf : process_frame cb sflags
        { seq_expect := seq0, multipart := false, interrupted := false,
          nrecv := 0, trace := [] } f =
        nl_cb_invoke .INVALID g f.hdr
          { seq_expect := seq0, multipart := false, interrupted := false,
            nrecv := 1, trace := [] } (rm_bookkeep cb f) := by
      simp only [process_frame, hmi, rm_seqcheck, hsc, hack]
      simp [hseq, hg]
    rw [hpf]
    unfold nl_cb_invoke
    cases cb_call_sem (g f.hdr) with
    | cont =>
      apply trace_mono_bookkeep
      simp
    | skip => simp [StepOut.state]
    | stop => simp [StepOut.state]
    | out e => simp [StepOut.state]
  · intro hinv
    have hpf : process_frame cb sflags
        { seq_expect := seq0, multipart := false, interrupted := false,
          nrecv := 0, trace := [] } f =
        .out { seq_expect := seq0, multipart := false, interrupted := false,
               nrecv := 1, trace := [] } (-(NLE_SEQ_MISMATCH : Int)) := by
      simp only [process_frame, hmi, rm_seqcheck, hsc, hack]
      simp [hseq, hinv]
    have hrun : recvmsgs_run cb sflags seq0 ((f :: fs) :: rest) =
        (-(NLE_SEQ_MISMATCH : Int),
         { seq_expect := seq0, multipart := false, interrupted := false,
           nrecv := 1, trace := [] }) := by
      simp only [recvmsgs_run, recvmsgs, process_frames, hpf, rm_epilogue]
      norm_num [NLE_SEQ_MISMATCH]
    rw [hrun]
    refine ⟨rfl, ?_⟩
    intro n hn
    simp at hn

/-- C1 witness: with no hooks bound at all, a single frame with sequence 9
against `seq_expect = 7` aborts the loop with `-NLE_SEQ_MISMATCH` and an
empty invocation trace. -/
theorem recvmsgs_seq_check_mismatch_witness :
    (recvmsgs_run {} 0 7
        [[{ hdr := { nlmsg_len := 16, nlmsg_type := 16, nlmsg_flags := 0,
                     nlmsg_seq := 9, nlmsg_pid := 0 }, err := 0 }]]).1 =
      -(NLE_SEQ_MISMATCH : Int) :=
  ((recvmsgs_seq_check_mismatch {} 0 7
      { hdr := { nlmsg_len := 16, nlmsg_type := 16, nlmsg_flags := 0,
                 nlmsg_seq := 9, nlmsg_pid := 0 }, err := 0 } [] []
      rfl rfl (by decide) (by decide)).2 rfl).1

/-- C6 (status: corrected, counterexample): the claim says an error hook
returning `NL_STOP` ends the receive loop successfully, but in the source the
`NL_STOP` arm sets `err = -nl_syserr2nlerr(e->error)` and jumps to `out`: on
a concrete kernel-error frame with a hook constantly returning `NL_STOP` the
loop returns the negated translated kernel error — a negative value, not a
success. -/
theorem recvmsgs_error_hook_stop_counterexample :
    (recvmsgs_run { cb_err := some (fun _ => NL_STOP) } 16 0
        [[{ hdr := { nlmsg_len := 36, nlmsg_type := 2, nlmsg_flags := 0,
                     nlmsg_seq := 0, nlmsg_pid := 0 }, err := -2 }]]).1 =
      -(nl_syserr2nlerr (-2)) ∧
    (recvmsgs_run { cb_err := some (fun _ => NL_STOP) } 16 0
        [[{ hdr := { nlmsg_len := 36, nlmsg_type := 2, nlmsg_flags := 0,
                     nlmsg_seq := 0, nlmsg_pid := 0 }, err := -2 }]]).1 < 0 := by
  constructor
  · decide
  · decide

/-- C6 (status: corrected, amended): for an `NLMSG_ERROR` frame with a
nonzero inner code and a bound error hook, the hook's return value steers the
loop as follows — `NL_SKIP` drops the frame and the loop continues (here: the
single-frame run completes successfully with frame count 1 and `VALID` is
never invoked); any negative value aborts the loop surfacing exactly that
value; and `NL_STOP` aborts the loop surfacing the negated translated kernel
error (not a success, contrary to the claim as stated). -/
theorem recvmsgs_error_hook_amended (cb : NlCb) (sflags seq0 : Nat) (f : Frame)
    (h : Int → Int)
    (hmi : cb.cb_msg_in = none) (hsc : cb.cb_seq_check = none)
    (hna : sflags &&& NL_NO_AUTO_ACK ≠ 0)
    (hty : f.hdr.nlmsg_type = NLMSG_ERROR)
    (hlen : nlmsgerr_min_len ≤ f.hdr.nlmsg_len)
    (herr : f.err ≠ 0)
    (hfd : f.hdr.nlmsg_flags &&& NLM_F_DUMP_INTR = 0)
    (hfa : f.hdr.nlmsg_flags &&& NLM_F_ACK = 0)
    (hfm : f.hdr.nlmsg_flags &&& NLM_F_MULTI = 0)
    (hcb : cb.cb_err = some h) :
    (h f.err = NL_SKIP →
       (recvmsgs_run cb sflags seq0 [[f]]).1 = 1 ∧
       ∀ n, (Hook.VALID, n) ∉ (recvmsgs_run cb sflags seq0 [[f]]).2.trace) ∧
    (h f.err = NL_STOP →
       (recvmsgs_run cb sflags seq0 [[f]]).1 = -(nl_syserr2nlerr f.err)) ∧
    (h f.err < 0 →
       (recvmsgs_run cb sflags seq0 [[f]]).1 = h f.err) := by
  have hnl : ¬ (f.hdr.nlmsg_len < nlmsgerr_min_len) := not_lt.mpr hlen
  have hpf : process_frame cb sflags
      { seq_expect := seq0, multipart := false, interrupted := false,
        nrecv := 0, trace := [] } f =
      (if h f.err < 0 then
        .out { seq_expect := (seq0 + 1) % 2^32, multipart := false,
               interrupted := false, nrecv := 1, trace := [(Hook.ERR, 1)] }
            (h f.err)
       else if h f.err = NL_SKIP then
        .next { seq_expect := (seq0 + 1) % 2^32, multipart := false,
                interrupted := false, nrecv := 1, trace := [(Hook.ERR, 1)] }
       else if h f.err = NL_STOP then
        .out { seq_expect := (seq0 + 1) % 2^32, multipart := false,
               interrupted := false, nrecv := 1, trace := [(Hook.ERR, 1)] }
            (-(nl_syserr2nlerr f.err))
       else
        .next { seq_expect := (seq0 + 1) % 2^32, multipart := false,
                interrupted := false, nrecv := 1, trace := [(Hook.ERR, 1)] }) := by
    simp only [process_frame, hmi, rm_seqcheck, hsc, rm_bookkeep, rm_dumpintr,
      rm_ackflag, rm_dispatch]
    simp [hna, hty, hnl, herr, hfd, hfa, hfm, hcb,
      NLMSG_DONE, NLMSG_ERROR, NLMSG_NOOP, NLMSG_OVERRUN]
  refine ⟨?_, ?_, ?_⟩
  · intro hv
    have hneg : ¬ (h f.err < 0) := by rw [hv]; decide
    have hrun : recvmsgs_run cb sflags seq0 [[f]] =
        ((1 : Int),
         { seq_expect := (seq0 + 1) % 2^32, multipart := false,
           interrupted := false, nrecv := 1, trace := [(Hook.ERR, 1)] }) := by
      simp only [recvmsgs_run, recvmsgs, process_frames, hpf, hv, hneg,
        if_false, if_true]
      norm_num [rm_epilogue, NL_SKIP, NL_STOP, NLE_DUMP_INTR]
    rw [hrun]
    refine ⟨rfl, ?_⟩
    intro n hn
    simp at hn
  · intro hv
    have hneg : ¬ (h f.err < 0) := by rw [hv]; decide
    have hns : h f.err ≠ NL_SKIP := by rw [hv]; decide
    have hrun : recvmsgs_run cb sflags seq0 [[f]] =
        (-(nl_syserr2nlerr f.err),
         { seq_expect := (seq0 + 1) % 2^32, multipart := false,
           interrupted := false, nrecv := 1, trace := [(Hook.ERR, 1)] }) := by
      simp only [recvmsgs_run, recvmsgs, process_frames, hpf, hv, hneg, hns,
        if_false, if_true]
      norm_num [rm_epilogue, nl_syserr2nlerr, NLE_FAILURE, NL_SKIP, NL_STOP,
        NLE_DUMP_INTR]
    rw [hrun]
  · intro hv
    have hne : h f.err ≠ 0 := by omega
    have hns : h f.err ≠ NL_SKIP := by unfold NL_SKIP; omega
    have hnt : h f.err ≠ NL_STOP := by unfold NL_STOP; omega
    have hrun : recvmsgs_run cb sflags seq0 [[f]] =
        (h f.err,
         { seq_expect := (seq0 + 1) % 2^32, multipart := false,
           interrupted := false, nrecv := 1, trace := [(Hook.ERR, 1)] }) := by
      simp only [recvmsgs_run, recvmsgs, process_frames, hpf, hv, if_true]
      simp [rm_epilogue, hne, NL_SKIP, NL_STOP, NLE_DUMP_INTR]
    rw [hrun]

/-- C6 witness: a concrete kernel-error frame with a hook constantly
returning `NL_SKIP` is dropped and the single-frame run completes with frame
count 1. -/
theorem recvmsgs_error_hook_amended_witness :
    (recvmsgs_run { cb_err := some (fun _ => NL_SKIP) } 16 0
        [[{ hdr := { nlmsg_len := 36, nlmsg_type := 2, nlmsg_flags := 0,
                     nlmsg_seq := 0, nlmsg_pid := 0 }, err := -2 }]]).1 = 1 :=
  ((recvmsgs_error_hook_amended { cb_err := some (fun _ => NL_SKIP) } 16 0
      { hdr := { nlmsg_len := 36, nlmsg_type := 2, nlmsg_flags := 0,
                 nlmsg_seq := 0, nlmsg_pid := 0 }, err := -2 }
      (fun _ => NL_SKIP) rfl rfl (by decide) rfl (by decide) (by decide)
      (by decide) (by decide) (by decide) rfl).1 rfl).1

/-- C7 (status: code_bug, failing input): the spec (and the callback-defaults
table documented at the top of lib/handlers.c, `NL_CB_ACK → NL_STOP`) says an
empty `ACK` slot behaves as a hook returning `NL_STOP` on a kernel ACK
(`NLMSG_ERROR` frame with zero inner code), ending the loop at that frame and
discarding the rest; but the code's `else if (cb->cb_set[NL_CB_ACK])` simply
falls through when the slot is empty: on a datagram holding a kernel ACK
followed by another frame, the second frame is still processed (its `VALID`
hook fires as frame number 2) and the loop returns frame count 2. -/
theorem recvmsgs_ack_default_not_stop :
    (recvmsgs_run { cb_valid := some (fun _ => NL_OK) } 16 0
        [[{ hdr := { nlmsg_len := 36, nlmsg_type := 2, nlmsg_flags := 0,
                     nlmsg_seq := 0, nlmsg_pid := 0 }, err := 0 },
          { hdr := { nlmsg_len := 16, nlmsg_type := 16, nlmsg_flags := 0,
                     nlmsg_seq := 0, nlmsg_pid := 0 }, err := 0 }]]).1 = 2 ∧
    (Hook.VALID, 2) ∈
      (recvmsgs_run { cb_valid := some (fun _ => NL_OK) } 16 0
        [[{ hdr := { nlmsg_len := 36, nlmsg_type := 2, nlmsg_flags := 0,
                     nlmsg_seq := 0, nlmsg_pid := 0 }, err := 0 },
          { hdr := { nlmsg_len := 16, nlmsg_type := 16, nlmsg_flags := 0,
                     nlmsg_seq := 0, nlmsg_pid := 0 }, err := 0 }]]).2.trace := by
  constructor
  · decide
  · decide
